import Mathlib

/-
  Verification development for the ClamAV virus-scanner Lambda
  (src/aws-migration/lambda/clamav-scanner/index.py).

  The Python module is orchestration glue around three external
  collaborators: the object store (download_file, copy_object,
  delete_object, put_object_tagging), the scan-engine subprocess
  (clamscan), and the notification topic (sns.publish).  We embed it
  shallowly: every external call's outcome is an explicit field of an
  environment record, the module's functions become pure Lean functions
  from that environment to a result, exceptions become `Except`, and the
  externally observable calls are accumulated in an effect trace.
-/

namespace ClamavScanner

/-- Exceptions that can arise in the embedded code: `botocore` ClientError
(all AWS-service failures), `subprocess.TimeoutExpired` (raised by
`subprocess.run` when the 300-second timeout elapses), ValueError (raised
by `parse_event` on an unknown event shape), IndexError (raised by
`event['Records'][0]` on an empty list) and FileNotFoundError (raised by
`os.unlink` on a missing path). -/
inductive Exn where
  | clientError (msg : String)
  | timeoutExpired
  | valueError (msg : String)
  | indexError
  | fileNotFoundError
deriving DecidableEq, Repr

/-- Module configuration, lines 29 to 33 of index.py: every field is read
from the environment with a default. `MAX_FILE_SIZE_MB` is kept in MiB
here; the byte ceiling is `MAX_FILE_SIZE` below. -/
structure Config where
  quarantineBucket : String
  alertTopicArn : String
  clamDbPath : String
  clamscanPath : String
  maxFileSizeMB : Nat
deriving DecidableEq, Repr

/-- Line 33: `MAX_FILE_SIZE = int(MAX_FILE_SIZE_MB) * 1024 * 1024`, bytes. -/
def MAX_FILE_SIZE (cfg : Config) : Nat := cfg.maxFileSizeMB * 1024 * 1024

/-- Lines 36 to 40: the fixed media-extension allow-list. The Python value
is a set; only membership is used, so a list embeds it. -/
def SKIP_EXTENSIONS : List String :=
  [".jpg", ".jpeg", ".png", ".gif", ".webp", ".heic", ".heif", ".avif",
   ".mp4", ".mov", ".webm", ".m4v", ".avi",
   ".mp3", ".m4a", ".wav", ".aac", ".flac", ".ogg"]

/-- Externally observable calls made during one invocation, in order.
Each constructor marks the point where the corresponding external call is
issued (for fallible calls this is the attempt; success or failure is
carried by the `Except` result of the function that issued it). -/
inductive Effect where
  | download (bucket key : String)
  | engineRun (clamscanPath dbPath : String)
  | unlinkTmp
  | copyObject (srcBucket srcKey dstBucket dstKey : String)
      (metadata : List (String × String))
  | deleteObject (bucket key : String)
  | putTagging (bucket key : String) (tags : List (String × String))
  | alert (ty : String) (data : List (String × String))
  | publish (ty : String)
deriving DecidableEq, Repr

/-- Python truthiness of `a or b` on strings: the first operand if it is
non-empty, otherwise the second. -/
def pyOrStr (a b : String) : String := if a = "" then b else a

/-- Extension part of `os.path.splitext`, on a list of characters: take the
basename (after the last slash), ignore its leading dots, and if a dot
remains, the extension runs from the last dot to the end. This matches
CPython's `splitext` (the last dot must have a non-dot character before it
inside the basename). -/
def splitextExtList (cs : List Char) : List Char :=
  let base := (cs.reverse.takeWhile (fun c => c ≠ '/')).reverse
  let lead := base.takeWhile (fun c => c = '.')
  let rest := base.drop lead.length
  if rest.any (fun c => c = '.') then
    '.' :: (rest.reverse.takeWhile (fun c => c ≠ '.')).reverse
  else []

/-- Line 71: `os.path.splitext(p)[1]`. -/
def splitext_ext (p : String) : String := String.mk (splitextExtList p.data)

/-- Line 71: `key.lower()`, character by character (the allow-list is pure
ASCII, for which this agrees with Python's `str.lower`). -/
def pyLower (s : String) : String := String.mk (s.data.map Char.toLower)

/-- Wall-clock instant used by `datetime.utcnow()`: the calendar fields
feed `strftime` and `iso` is the `isoformat()` rendering. -/
structure DateTime where
  year : Nat
  month : Nat
  day : Nat
  iso : String
deriving DecidableEq, Repr

/-- Two-digit zero-padded decimal, as `strftime` `%m` / `%d` produce. -/
def pad2 (n : Nat) : String := if n < 10 then "0" ++ toString n else toString n

/-- Four-digit zero-padded decimal, as `strftime` `%Y` produces. -/
def pad4 (n : Nat) : String :=
  if n < 10 then "000" ++ toString n
  else if n < 100 then "00" ++ toString n
  else if n < 1000 then "0" ++ toString n
  else toString n

/-- Line 181: `datetime.utcnow().strftime('%Y/%m/%d')`. -/
def strftimeYMD (d : DateTime) : String :=
  pad4 d.year ++ "/" ++ pad2 d.month ++ "/" ++ pad2 d.day

/-- Outcome of the `subprocess.run` call on the scan engine: either the
process completed with an exit code and captured output streams, or the
300-second timeout elapsed, in which case `subprocess.run` raises
`TimeoutExpired` (it does not return a completed process). -/
inductive EngineOutcome where
  | completed (returncode : Int) (stdout stderr : String)
  | timedOut
deriving DecidableEq, Repr

/-- External outcomes that `scan_file` can observe: whether
`s3.download_file` succeeds (and its error text when not), whether the
temporary file is still present after a failed download, whether
`os.path.exists(CLAMSCAN_PATH)` holds, and the engine outcome. -/
structure ScanEnv where
  downloadOk : Bool
  downloadErr : String
  tmpAfterFailedDownload : Bool
  clamscanExists : Bool
  engine : EngineOutcome
deriving DecidableEq, Repr

/-- Scan result dict, `{'infected': bool, 'details': str}`. -/
structure ScanResult where
  infected : Bool
  details : String
deriving DecidableEq, Repr

deriving instance DecidableEq for Except

/-- Result of `scan_file`: the returned value or the exception escaping
it, the effect trace, and the final existence state of the temporary
file. -/
structure ScanOut where
  result : Except Exn ScanResult
  trace : List Effect
  tmpExists : Bool
deriving DecidableEq, Repr

/-- Line 176: `os.unlink(tmp_path)` deletes the file; on a path that does
not exist it raises FileNotFoundError. The boolean is the file's
existence state. -/
def os_unlink (tmpExists : Bool) : Except Exn Bool :=
  if tmpExists then Except.ok false else Except.error Exn.fileNotFoundError

/-- Lines 175 to 176, the body of the `finally` block: unlink only when
`os.path.exists(tmp_path)` holds, so the cleanup cannot itself raise. -/
def cleanup_tmp (tmpExists : Bool) : Except Exn Bool :=
  if tmpExists then os_unlink tmpExists else Except.ok tmpExists

/-- Lines 130 to 171, the `try` body of `scan_file`: download the object
(line 132; a failure raises ClientError), fall back to a placeholder
result when the clamscan binary is absent (lines 135 to 137), otherwise
run the engine (lines 141 to 152; a timeout raises TimeoutExpired) and
map its exit code (lines 158 to 171): 0 clean, 1 infected with details
`stdout.strip() or stderr.strip()`, anything else not infected with
details `'Scan error: ' + (stderr.strip() or stdout.strip())`. The
temporary file created on line 127 exists when the body starts. -/
def scan_file_try (cfg : Config) (env : ScanEnv) (bucket key : String) : ScanOut :=
  if env.downloadOk = false then
    { result := Except.error (Exn.clientError env.downloadErr)
      trace := [Effect.download bucket key]
      tmpExists := env.tmpAfterFailedDownload }
  else if env.clamscanExists = false then
    { result := Except.ok { infected := false, details := "ClamAV not available" }
      trace := [Effect.download bucket key]
      tmpExists := true }
  else
    match env.engine with
    | EngineOutcome.timedOut =>
      { result := Except.error Exn.timeoutExpired
        trace := [Effect.download bucket key,
                  Effect.engineRun cfg.clamscanPath cfg.clamDbPath]
        tmpExists := true }
    | EngineOutcome.completed rc out err =>
      let tr := [Effect.download bucket key,
                 Effect.engineRun cfg.clamscanPath cfg.clamDbPath]
      if rc = 0 then
        { result := Except.ok { infected := false, details := "No threats detected" }
          trace := tr, tmpExists := true }
      else if rc = 1 then
        { result := Except.ok { infected := true, details := pyOrStr out.trim err.trim }
          trace := tr, tmpExists := true }
      else
        { result := Except.ok
            { infected := false
              details := "Scan error: " ++ pyOrStr err.trim out.trim }
          trace := tr, tmpExists := true }

/-- Lines 119 to 176, `scan_file`: the `try` body followed by the
`finally` block. If the `finally` block itself raised, its exception
would replace the body's outcome (Python semantics); `cleanup_tmp` never
does, which the theorems establish. -/
def scan_file (cfg : Config) (env : ScanEnv) (bucket key : String) : ScanOut :=
  let body := scan_file_try cfg env bucket key
  match cleanup_tmp body.tmpExists with
  | Except.ok tmp2 =>
    { result := body.result
      trace := body.trace ++ (if body.tmpExists then [Effect.unlinkTmp] else [])
      tmpExists := tmp2 }
  | Except.error e =>
    { result := Except.error e
      trace := body.trace
      tmpExists := body.tmpExists }

/-- External outcomes for one whole handler invocation: the scan
environment plus the success of `copy_object`, `delete_object`,
`put_object_tagging` and `sns.publish`, and the current UTC instant. -/
structure World where
  scan : ScanEnv
  copyOk : Bool
  copyErr : String
  deleteOk : Bool
  deleteErr : String
  tagOk : Bool
  tagErr : String
  publishOk : Bool
  now : DateTime
deriving DecidableEq, Repr

/-- Lines 244 to 264, `send_alert`: with no topic configured the alert is
only logged; otherwise `sns.publish` is attempted and a ClientError from
it is logged and swallowed, so the function never raises. The `alert`
effect marks the call itself (the Python payload also carries a timestamp
and echoes the input dict into a JSON envelope; the model keeps the alert
type and the data fields). -/
def send_alert (cfg : Config) (publishOk : Bool) (ty : String)
    (data : List (String × String)) : List Effect :=
  if cfg.alertTopicArn = "" then [Effect.alert ty data]
  else if publishOk then [Effect.alert ty data, Effect.publish ty]
  else [Effect.alert ty data]

/-- Line 181: the quarantine destination key
`f"infected/{date}/{bucket}/{key}"` with the date rendered `%Y/%m/%d`. -/
def quarantine_key (now : DateTime) (bucket key : String) : String :=
  "infected/" ++ strftimeYMD now ++ "/" ++ bucket ++ "/" ++ key

/-- Lines 191 to 196: the metadata attached to the quarantine copy —
original location, scan details truncated to 256 characters, and the
quarantine timestamp. -/
def quarantine_metadata (now : DateTime) (bucket key details : String) :
    List (String × String) :=
  [("original-bucket", bucket), ("original-key", key),
   ("scan-result", details.take 256), ("quarantine-date", now.iso)]

/-- Lines 179 to 222, `handle_infected_file`: copy the object to the
quarantine bucket with replaced metadata, delete the original, send the
MALWARE_DETECTED alert; a ClientError from copy or delete triggers a
QUARANTINE_FAILED alert and is re-raised. -/
def handle_infected_file (cfg : Config) (w : World) (bucket key : String)
    (sr : ScanResult) : Except Exn Unit × List Effect :=
  let qkey := quarantine_key w.now bucket key
  let copyEff := Effect.copyObject bucket key cfg.quarantineBucket qkey
      (quarantine_metadata w.now bucket key sr.details)
  if w.copyOk then
    if w.deleteOk then
      (Except.ok (),
       [copyEff, Effect.deleteObject bucket key] ++
         send_alert cfg w.publishOk "MALWARE_DETECTED"
           [("bucket", bucket), ("key", key), ("scan_result", sr.details),
            ("quarantine_location",
              "s3://" ++ cfg.quarantineBucket ++ "/" ++ qkey),
            ("action", "File quarantined and deleted from source")])
    else
      (Except.error (Exn.clientError w.deleteErr),
       [copyEff, Effect.deleteObject bucket key] ++
         send_alert cfg w.publishOk "QUARANTINE_FAILED"
           [("bucket", bucket), ("key", key), ("scan_result", sr.details),
            ("error", w.deleteErr)])
  else
    (Except.error (Exn.clientError w.copyErr),
     [copyEff] ++
       send_alert cfg w.publishOk "QUARANTINE_FAILED"
         [("bucket", bucket), ("key", key), ("scan_result", sr.details),
          ("error", w.copyErr)])

/-- Lines 228 to 233: the tag set written by `tag_object` — status,
timestamp, and the truncated details when non-empty. -/
def scan_tags (now : DateTime) (status details : String) : List (String × String) :=
  [("virus-scan", status), ("scan-date", now.iso)] ++
    (if details = "" then [] else [("scan-details", details.take 256)])

/-- Lines 235 to 239: the `s3.put_object_tagging` call; the effect marks
the attempt and a failure raises ClientError. -/
def put_object_tagging (w : World) (bucket key : String)
    (tags : List (String × String)) : Except Exn Unit × List Effect :=
  if w.tagOk then (Except.ok (), [Effect.putTagging bucket key tags])
  else (Except.error (Exn.clientError w.tagErr), [Effect.putTagging bucket key tags])

/-- Lines 225 to 241, `tag_object`: build the tag set and write it; a
ClientError is logged and swallowed (lines 240 to 241), any other
exception would propagate. -/
def tag_object (w : World) (bucket key status details : String) :
    Except Exn Unit × List Effect :=
  match put_object_tagging w bucket key (scan_tags w.now status details) with
  | (Except.ok u, t) => (Except.ok u, t)
  | (Except.error e, t) =>
    match e with
    | Exn.clientError _ => (Except.ok (), t)
    | e2 => (Except.error e2, t)

/-- One record of a direct S3 notification:
`record['s3']['bucket']['name']`, `record['s3']['object']['key']`,
`record['s3']['object'].get('size', 0)`. -/
structure S3Record where
  bucket : String
  key : String
  size : Option Nat
deriving DecidableEq, Repr

/-- Inbound event shapes, lines 101 to 114: an EventBridge envelope (has a
`detail` key with bucket name, object key and optional size), a direct S3
notification (has a `Records` list), or anything else. -/
inductive Event where
  | eventBridge (bucket key : String) (size : Option Nat)
  | records (recs : List S3Record)
  | other (desc : String)
deriving DecidableEq, Repr

/-- Lines 99 to 116, `parse_event`: extract bucket, key and declared size.
The EventBridge shape reads `detail`; the records shape reads only
`event['Records'][0]` (IndexError on an empty list); any other shape
raises `ValueError('Unknown event format: ...')`. -/
def parse_event : Event → Except Exn (String × String × Nat)
  | Event.eventBridge bucket key size => Except.ok (bucket, key, size.getD 0)
  | Event.records recs =>
    match recs with
    | [] => Except.error Exn.indexError
    | r :: _ => Except.ok (r.bucket, r.key, r.size.getD 0)
  | Event.other desc =>
    Except.error (Exn.valueError ("Unknown event format: " ++ desc))

/-- Rendering `str(e)` for the SCAN_ERROR alert payload. -/
def exnMessage : Exn → String
  | Exn.clientError m => m
  | Exn.timeoutExpired => "Command timed out after 300 seconds"
  | Exn.valueError m => m
  | Exn.indexError => "list index out of range"
  | Exn.fileNotFoundError => "No such file or directory"

/-- Return value of a successful handler invocation,
`{'statusCode': ..., 'body': ...}`. -/
structure HandlerResult where
  statusCode : Nat
  body : String
deriving DecidableEq, Repr

/-- Lines 43 to 96, `handler`: parse the event; skip oversized files
(tag `skipped`); skip allow-listed media extensions of the lowercased key
(tag `clean`); otherwise download and scan, then quarantine or tag clean.
Any exception escaping the `try` body — from parsing, tagging, the scan,
or quarantining — triggers a SCAN_ERROR alert and is re-raised
(lines 89 to 96). -/
def handler (cfg : Config) (w : World) (event : Event) :
    Except Exn HandlerResult × List Effect :=
  match parse_event event with
  | Except.error e =>
    (Except.error e,
     send_alert cfg w.publishOk "SCAN_ERROR" [("error", exnMessage e)])
  | Except.ok (bucket, key, size) =>
    if size > MAX_FILE_SIZE cfg then
      match tag_object w bucket key "skipped" "File too large" with
      | (Except.ok _, t) =>
        (Except.ok { statusCode := 200, body := "File too large - skipped" }, t)
      | (Except.error e, t) =>
        (Except.error e,
         t ++ send_alert cfg w.publishOk "SCAN_ERROR" [("error", exnMessage e)])
    else if splitext_ext (pyLower key) ∈ SKIP_EXTENSIONS then
      match tag_object w bucket key "clean" "Media file - basic validation" with
      | (Except.ok _, t) =>
        (Except.ok { statusCode := 200, body := "Media file - basic validation passed" }, t)
      | (Except.error e, t) =>
        (Except.error e,
         t ++ send_alert cfg w.publishOk "SCAN_ERROR" [("error", exnMessage e)])
    else
      let so := scan_file cfg w.scan bucket key
      match so.result with
      | Except.error e =>
        (Except.error e,
         so.trace ++ send_alert cfg w.publishOk "SCAN_ERROR" [("error", exnMessage e)])
      | Except.ok sr =>
        if sr.infected then
          match handle_infected_file cfg w bucket key sr with
          | (Except.ok _, t) =>
            (Except.ok { statusCode := 200, body := "Infected file quarantined" },
             so.trace ++ t)
          | (Except.error e, t) =>
            (Except.error e,
             so.trace ++ t ++
               send_alert cfg w.publishOk "SCAN_ERROR" [("error", exnMessage e)])
        else
          match tag_object w bucket key "clean" "" with
          | (Except.ok _, t) =>
            (Except.ok { statusCode := 200, body := "File scanned - clean" },
             so.trace ++ t)
          | (Except.error e, t) =>
            (Except.error e,
             so.trace ++ t ++
               send_alert cfg w.publishOk "SCAN_ERROR" [("error", exnMessage e)])

/-- Helper: the guarded cleanup of the temporary file never raises and
always leaves the file absent. -/
lemma cleanup_tmp_ok : ∀ b : Bool, cleanup_tmp b = Except.ok false := by
  intro b
  cases b <;> rfl

/-- Helper: every call to `send_alert` records the alert, whichever way
delivery goes (log-only, published, or publish failure swallowed). -/
lemma alert_mem_send_alert (cfg : Config) (p : Bool) (ty : String)
    (data : List (String × String)) :
    Effect.alert ty data ∈ send_alert cfg p ty data := by
  unfold send_alert
  split
  · simp
  · split <;> simp

/-- Helper: `tag_object` always returns normally with exactly the tagging
attempt in its trace, whether or not the write succeeds. -/
lemma tag_object_eq (w : World) (bucket key status details : String) :
    tag_object w bucket key status details =
      (Except.ok (), [Effect.putTagging bucket key (scan_tags w.now status details)]) := by
  unfold tag_object put_object_tagging
  cases h : w.tagOk <;> simp [h]

/-- C10: for every records-shape event, `parse_event` reads the bucket,
key and size from the first record only; any further records are ignored,
so the invocation processes at most one object. -/
theorem claim_C10 (r : S3Record) (rest : List S3Record) :
    parse_event (Event.records (r :: rest)) =
      Except.ok (r.bucket, r.key, r.size.getD 0) ∧
    parse_event (Event.records (r :: rest)) = parse_event (Event.records [r]) :=
  ⟨rfl, rfl⟩

/-- C3: for every event of neither recognized shape, the handler fails
with the unrecognized-event-format error (`ValueError('Unknown event
format: ...')`), its trace is exactly the SCAN_ERROR alert emission, and
that alert is recorded before the error propagates to the caller. -/
theorem claim_C3 (cfg : Config) (w : World) (desc : String) :
    (handler cfg w (Event.other desc)).fst =
      Except.error (Exn.valueError ("Unknown event format: " ++ desc)) ∧
    (handler cfg w (Event.other desc)).snd =
      send_alert cfg w.publishOk "SCAN_ERROR"
        [("error", "Unknown event format: " ++ desc)] ∧
    Effect.alert "SCAN_ERROR" [("error", "Unknown event format: " ++ desc)]
      ∈ (handler cfg w (Event.other desc)).snd := by
  refine ⟨rfl, rfl, ?_⟩
  exact alert_mem_send_alert cfg w.publishOk "SCAN_ERROR"
    [("error", "Unknown event format: " ++ desc)]

/-- C7: on every exit path of `scan_file` — failed download, missing
engine, timeout, or any exit code — the temporary file is gone when
`scan_file` finishes, and the guarded cleanup is safe when the file is
already absent (it returns normally for both existence states). -/
theorem claim_C7 (cfg : Config) (env : ScanEnv) (bucket key : String) :
    (scan_file cfg env bucket key).tmpExists = false ∧
    (∀ b : Bool, cleanup_tmp b = Except.ok false) := by
  refine ⟨?_, cleanup_tmp_ok⟩
  simp [scan_file, cleanup_tmp_ok]

/-- Concrete configuration used by witnesses: the source defaults with a
quarantine bucket and an alert topic configured. -/
def cfg0 : Config :=
  { quarantineBucket := "quarantine-bucket"
    alertTopicArn := "arn:aws:sns:us-east-1:123:alerts"
    clamDbPath := "/opt/clamav/share/clamav"
    clamscanPath := "/opt/clamav/bin/clamscan"
    maxFileSizeMB := 500 }

/-- Concrete instant used by witnesses. -/
def now0 : DateTime :=
  { year := 2026, month := 10, day := 12, iso := "2026-10-12T10:00:00" }

/-- Scan environment in which everything succeeds and the engine reports
a clean file. -/
def envClean : ScanEnv :=
  { downloadOk := true, downloadErr := "", tmpAfterFailedDownload := false
    clamscanExists := true, engine := EngineOutcome.completed 0 "" "" }

/-- World in which every external call succeeds. -/
def w0 : World :=
  { scan := envClean, copyOk := true, copyErr := "", deleteOk := true
    deleteErr := "", tagOk := true, tagErr := "", publishOk := true, now := now0 }

/-- Event declaring a size one byte over the 500 MiB default ceiling. -/
def evBig : Event := Event.eventBridge "uploads" "big.bin" (some 524288001)

/-- Event for a small media file whose extension is allow-listed after
lowercasing. -/
def evMedia : Event := Event.eventBridge "uploads" "Video.MOV" (some 1024)

/-- C4: for every event whose declared size exceeds the configured
ceiling, the handler returns 200 with body "File too large - skipped",
its only external call is the `skipped` tagging attempt, and in
particular the scan engine is never run and the object is never
downloaded. -/
theorem claim_C4 (cfg : Config) (w : World) (event : Event)
    (bucket key : String) (size : Nat)
    (hp : parse_event event = Except.ok (bucket, key, size))
    (hsize : size > MAX_FILE_SIZE cfg) :
    (handler cfg w event).fst =
      Except.ok { statusCode := 200, body := "File too large - skipped" } ∧
    (handler cfg w event).snd =
      [Effect.putTagging bucket key (scan_tags w.now "skipped" "File too large")] ∧
    (∀ a b, Effect.engineRun a b ∉ (handler cfg w event).snd) ∧
    (∀ a b, Effect.download a b ∉ (handler cfg w event).snd) := by
  have h1 : handler cfg w event =
      (Except.ok { statusCode := 200, body := "File too large - skipped" },
       [Effect.putTagging bucket key (scan_tags w.now "skipped" "File too large")]) := by
    unfold handler
    rw [hp]
    simp [hsize, tag_object_eq]
  rw [h1]
  simp

/-- C4 witness: a declared size of 524288001 bytes against the default
524288000-byte ceiling. -/
theorem claim_C4_witness :
    (handler cfg0 w0 evBig).fst =
      Except.ok { statusCode := 200, body := "File too large - skipped" } ∧
    (handler cfg0 w0 evBig).snd =
      [Effect.putTagging "uploads" "big.bin" (scan_tags w0.now "skipped" "File too large")] ∧
    (∀ a b, Effect.engineRun a b ∉ (handler cfg0 w0 evBig).snd) ∧
    (∀ a b, Effect.download a b ∉ (handler cfg0 w0 evBig).snd) :=
  claim_C4 cfg0 w0 evBig "uploads" "big.bin" 524288001 rfl (by decide)

/-- C5: for every within-limit event whose key has an allow-listed media
extension after lowercasing, the handler returns 200 with body
"Media file - basic validation passed", its only external call is the
`clean` tagging attempt carrying the basic-validation note, and the scan
engine is never run. -/
theorem claim_C5 (cfg : Config) (w : World) (event : Event)
    (bucket key : String) (size : Nat)
    (hp : parse_event event = Except.ok (bucket, key, size))
    (hsize : ¬ size > MAX_FILE_SIZE cfg)
    (hext : splitext_ext (pyLower key) ∈ SKIP_EXTENSIONS) :
    (handler cfg w event).fst =
      Except.ok { statusCode := 200, body := "Media file - basic validation passed" } ∧
    (handler cfg w event).snd =
      [Effect.putTagging bucket key
        (scan_tags w.now "clean" "Media file - basic validation")] ∧
    (∀ a b, Effect.engineRun a b ∉ (handler cfg w event).snd) := by
  have h1 : handler cfg w event =
      (Except.ok { statusCode := 200, body := "Media file - basic validation passed" },
       [Effect.putTagging bucket key
         (scan_tags w.now "clean" "Media file - basic validation")]) := by
    unfold handler
    rw [hp]
    simp [hsize, hext, tag_object_eq]
  rw [h1]
  simp

/-- C5 witness: key "Video.MOV" (extension ".mov" after lowercasing) at
1024 bytes. -/
theorem claim_C5_witness :
    (handler cfg0 w0 evMedia).fst =
      Except.ok { statusCode := 200, body := "Media file - basic validation passed" } ∧
    (handler cfg0 w0 evMedia).snd =
      [Effect.putTagging "uploads" "Video.MOV"
        (scan_tags w0.now "clean" "Media file - basic validation")] ∧
    (∀ a b, Effect.engineRun a b ∉ (handler cfg0 w0 evMedia).snd) :=
  claim_C5 cfg0 w0 evMedia "uploads" "Video.MOV" 1024 rfl (by decide) (by decide)

/-- C9: tagging failures are swallowed inside `tag_object` (it returns
normally for every world, in particular when the tag write fails), and
with a failing tag write the handler still returns its normal 200
outcome on the too-large skip path and on the media-extension clean
path. -/
theorem claim_C9 (w : World) (bucket key status details : String) :
    (tag_object w bucket key status details).fst = Except.ok () ∧
    (∀ cfg event b k size, parse_event event = Except.ok (b, k, size) →
      size > MAX_FILE_SIZE cfg →
      (handler cfg { w with tagOk := false } event).fst =
        Except.ok { statusCode := 200, body := "File too large - skipped" }) ∧
    (∀ cfg event b k size, parse_event event = Except.ok (b, k, size) →
      ¬ size > MAX_FILE_SIZE cfg →
      splitext_ext (pyLower k) ∈ SKIP_EXTENSIONS →
      (handler cfg { w with tagOk := false } event).fst =
        Except.ok { statusCode := 200, body := "Media file - basic validation passed" }) := by
  refine ⟨?_, ?_, ?_⟩
  · rw [tag_object_eq]
  · intro cfg event b k size hp hsize
    unfold handler
    rw [hp]
    simp [hsize, tag_object_eq]
  · intro cfg event b k size hp hsize hext
    unfold handler
    rw [hp]
    simp [hsize, hext, tag_object_eq]

/-- C9 witness: with the tag write failing, `tag_object` still returns
normally and the handler still returns 200 on both skip paths. -/
theorem claim_C9_witness :
    (tag_object { w0 with tagOk := false } "uploads" "doc.bin" "clean" "").fst =
      Except.ok () ∧
    (handler cfg0 { { w0 with tagOk := false } with tagOk := false } evBig).fst =
      Except.ok { statusCode := 200, body := "File too large - skipped" } ∧
    (handler cfg0 { { w0 with tagOk := false } with tagOk := false } evMedia).fst =
      Except.ok { statusCode := 200, body := "Media file - basic validation passed" } :=
  ⟨(claim_C9 { w0 with tagOk := false } "uploads" "doc.bin" "clean" "").1,
   (claim_C9 { w0 with tagOk := false } "uploads" "doc.bin" "clean" "").2.1
     cfg0 evBig "uploads" "big.bin" 524288001 rfl (by decide),
   (claim_C9 { w0 with tagOk := false } "uploads" "doc.bin" "clean" "").2.2
     cfg0 evMedia "uploads" "Video.MOV" 1024 rfl (by decide) (by decide)⟩

/-- Scan environment in which the engine hits the 300-second timeout, so
`subprocess.run` raises TimeoutExpired. -/
def envTimeout : ScanEnv :=
  { downloadOk := true, downloadErr := "", tmpAfterFailedDownload := false
    clamscanExists := true, engine := EngineOutcome.timedOut }

/-- World whose scan times out. -/
def wTimeout : World := { w0 with scan := envTimeout }

/-- Event for a small non-media file that reaches the scan stage. -/
def evDoc : Event := Event.eventBridge "uploads" "report.pdf" (some 2048)

/-- Scan environment in which the engine completes with exit code 2 and
an error message on standard error. -/
def envErr2 : ScanEnv :=
  { downloadOk := true, downloadErr := "", tmpAfterFailedDownload := false
    clamscanExists := true
    engine := EngineOutcome.completed 2 "" "LibClamAV Error: database load failed" }

/-- World whose scan fails with exit code 2. -/
def wErr2 : World := { w0 with scan := envErr2 }

/-- C1 counterexample: at the fixed 300-second timeout the engine call
raises TimeoutExpired, which `scan_file` does not recover (its `try` has
no `except`, only a `finally`): `scan_file` propagates the error instead
of returning an infected=false result, and the handler escalates it to
its caller after a SCAN_ERROR alert — contradicting the claim that every
non-0/1 outcome, timeout included, is recovered locally inside
`scan_file`. -/
theorem claim_C1_counterexample :
    (scan_file cfg0 envTimeout "uploads" "report.pdf").result =
      Except.error Exn.timeoutExpired ∧
    (handler cfg0 wTimeout evDoc).fst = Except.error Exn.timeoutExpired ∧
    Effect.alert "SCAN_ERROR" [("error", "Command timed out after 300 seconds")]
      ∈ (handler cfg0 wTimeout evDoc).snd := by
  refine ⟨rfl, ?_, ?_⟩ <;> decide

/-- C1 (amended): for every engine completion with an exit code other
than 0 and 1 — any error code, 2 or higher — `scan_file` returns
infected=false with the raw error text in details and the error is
recovered locally (the handler then tags clean and returns 200); a
timeout at the 300-second ceiling is instead raised out of `scan_file`
and escalated (see the counterexample). -/
theorem claim_C1 (cfg : Config) (w : World) (event : Event)
    (bucket key : String) (size : Nat) (rc : Int) (out err : String)
    (hp : parse_event event = Except.ok (bucket, key, size))
    (hsize : ¬ size > MAX_FILE_SIZE cfg)
    (hext : splitext_ext (pyLower key) ∉ SKIP_EXTENSIONS)
    (hdl : w.scan.downloadOk = true) (hex : w.scan.clamscanExists = true)
    (heng : w.scan.engine = EngineOutcome.completed rc out err)
    (h0 : rc ≠ 0) (h1 : rc ≠ 1) :
    (scan_file cfg w.scan bucket key).result =
      Except.ok { infected := false
                  details := "Scan error: " ++ pyOrStr err.trim out.trim } ∧
    (handler cfg w event).fst =
      Except.ok { statusCode := 200, body := "File scanned - clean" } := by
  constructor
  · simp [scan_file, scan_file_try, hdl, hex, heng, h0, h1, cleanup_tmp_ok]
  · unfold handler
    rw [hp]
    simp [hsize, hext, scan_file, scan_file_try, hdl, hex, heng, h0, h1,
      cleanup_tmp_ok, tag_object_eq]

/-- C1 witness: exit code 2 with an error message on standard error. -/
theorem claim_C1_witness :
    (scan_file cfg0 wErr2.scan "uploads" "report.pdf").result =
      Except.ok { infected := false
                  details := "Scan error: " ++
                    pyOrStr "LibClamAV Error: database load failed".trim "".trim } ∧
    (handler cfg0 wErr2 evDoc).fst =
      Except.ok { statusCode := 200, body := "File scanned - clean" } :=
  claim_C1 cfg0 wErr2 evDoc "uploads" "report.pdf" 2048 2
    "" "LibClamAV Error: database load failed"
    rfl (by decide) (by decide) rfl rfl rfl (by decide) (by decide)

/-- Scan environment in which the clamscan binary is absent at its
configured path. -/
def envNoClam : ScanEnv :=
  { downloadOk := true, downloadErr := "", tmpAfterFailedDownload := false
    clamscanExists := false, engine := EngineOutcome.completed 0 "" "" }

/-- World whose scan engine binary is missing. -/
def wNoClam : World := { w0 with scan := envNoClam }

/-- C8: when the scan engine executable is absent at its configured path,
`scan_file` returns infected=false with details "ClamAV not available",
and the handler tags the object clean and returns 200 rather than
raising. -/
theorem claim_C8 (cfg : Config) (w : World) (event : Event)
    (bucket key : String) (size : Nat)
    (hp : parse_event event = Except.ok (bucket, key, size))
    (hsize : ¬ size > MAX_FILE_SIZE cfg)
    (hext : splitext_ext (pyLower key) ∉ SKIP_EXTENSIONS)
    (hdl : w.scan.downloadOk = true) (hex : w.scan.clamscanExists = false) :
    (scan_file cfg w.scan bucket key).result =
      Except.ok { infected := false, details := "ClamAV not available" } ∧
    (handler cfg w event).fst =
      Except.ok { statusCode := 200, body := "File scanned - clean" } ∧
    Effect.putTagging bucket key (scan_tags w.now "clean" "")
      ∈ (handler cfg w event).snd := by
  have h1 : handler cfg w event =
      (Except.ok { statusCode := 200, body := "File scanned - clean" },
       [Effect.download bucket key, Effect.unlinkTmp,
        Effect.putTagging bucket key (scan_tags w.now "clean" "")]) := by
    unfold handler
    rw [hp]
    simp [hsize, hext, scan_file, scan_file_try, hdl, hex, cleanup_tmp_ok,
      tag_object_eq]
  refine ⟨?_, ?_, ?_⟩
  · simp [scan_file, scan_file_try, hdl, hex, cleanup_tmp_ok]
  · rw [h1]
  · rw [h1]
    simp

/-- C8 witness: the missing-binary environment on a small non-media
file. -/
theorem claim_C8_witness :
    (scan_file cfg0 wNoClam.scan "uploads" "report.pdf").result =
      Except.ok { infected := false, details := "ClamAV not available" } ∧
    (handler cfg0 wNoClam evDoc).fst =
      Except.ok { statusCode := 200, body := "File scanned - clean" } ∧
    Effect.putTagging "uploads" "report.pdf" (scan_tags wNoClam.now "clean" "")
      ∈ (handler cfg0 wNoClam evDoc).snd :=
  claim_C8 cfg0 wNoClam evDoc "uploads" "report.pdf" 2048
    rfl (by decide) (by decide) rfl rfl

/-- Helper: alert emission never records a delete of the original
object. -/
lemma deleteObject_not_mem_send_alert (b k : String) (cfg : Config) (p : Bool)
    (ty : String) (data : List (String × String)) :
    Effect.deleteObject b k ∉ send_alert cfg p ty data := by
  unfold send_alert
  split
  · simp
  · split <;> simp

/-- Scan environment in which the engine reports an infection (exit code
1) with the finding on standard output. -/
def envInf : ScanEnv :=
  { downloadOk := true, downloadErr := "", tmpAfterFailedDownload := false
    clamscanExists := true
    engine := EngineOutcome.completed 1 "/tmp/x: Eicar-Test-Signature FOUND" "" }

/-- World with an infected scan and all storage calls succeeding. -/
def wInf : World := { w0 with scan := envInf }

/-- World with an infected scan whose quarantine copy fails. -/
def wCopyFail : World :=
  { w0 with scan := envInf, copyOk := false, copyErr := "AccessDenied" }

/-- C2: when the scan is infected and the quarantine copy fails, the
handler propagates the failure to its caller, a QUARANTINE_FAILED alert
is emitted, the original object is never deleted, and — for every world
whatsoever — `handle_infected_file` only ever attempts the delete after
the copy has succeeded. -/
theorem claim_C2 (cfg : Config) (w : World) (event : Event)
    (bucket key : String) (size : Nat) (out err : String)
    (hp : parse_event event = Except.ok (bucket, key, size))
    (hsize : ¬ size > MAX_FILE_SIZE cfg)
    (hext : splitext_ext (pyLower key) ∉ SKIP_EXTENSIONS)
    (hdl : w.scan.downloadOk = true) (hex : w.scan.clamscanExists = true)
    (heng : w.scan.engine = EngineOutcome.completed 1 out err)
    (hc : w.copyOk = false) :
    (handler cfg w event).fst = Except.error (Exn.clientError w.copyErr) ∧
    Effect.alert "QUARANTINE_FAILED"
      [("bucket", bucket), ("key", key),
       ("scan_result", pyOrStr out.trim err.trim), ("error", w.copyErr)]
      ∈ (handler cfg w event).snd ∧
    Effect.deleteObject bucket key ∉ (handler cfg w event).snd ∧
    (∀ (cfg2 : Config) (w2 : World) (b k : String) (sr : ScanResult),
      Effect.deleteObject b k ∈ (handle_infected_file cfg2 w2 b k sr).snd →
      w2.copyOk = true) := by
  refine ⟨?_, ?_, ?_, ?_⟩
  · unfold handler
    rw [hp]
    simp [hsize, hext, scan_file, scan_file_try, hdl, hex, heng, cleanup_tmp_ok,
      handle_infected_file, hc]
  · unfold handler
    rw [hp]
    simp [hsize, hext, scan_file, scan_file_try, hdl, hex, heng, cleanup_tmp_ok,
      handle_infected_file, hc, alert_mem_send_alert]
  · unfold handler
    rw [hp]
    simp [hsize, hext, scan_file, scan_file_try, hdl, hex, heng, cleanup_tmp_ok,
      handle_infected_file, hc, deleteObject_not_mem_send_alert]
  · intro cfg2 w2 b k sr hmem
    by_cases hcopy : w2.copyOk = true
    · exact hcopy
    · exfalso
      have hcf : w2.copyOk = false := by
        cases h2 : w2.copyOk
        · rfl
        · exact absurd h2 hcopy
      unfold handle_infected_file at hmem
      simp [hcf, deleteObject_not_mem_send_alert] at hmem

/-- C2 witness: an infected scan whose quarantine copy is denied. -/
theorem claim_C2_witness :
    (handler cfg0 wCopyFail evDoc).fst =
      Except.error (Exn.clientError wCopyFail.copyErr) ∧
    Effect.alert "QUARANTINE_FAILED"
      [("bucket", "uploads"), ("key", "report.pdf"),
       ("scan_result",
         pyOrStr "/tmp/x: Eicar-Test-Signature FOUND".trim "".trim),
       ("error", wCopyFail.copyErr)]
      ∈ (handler cfg0 wCopyFail evDoc).snd ∧
    Effect.deleteObject "uploads" "report.pdf" ∉ (handler cfg0 wCopyFail evDoc).snd ∧
    (∀ (cfg2 : Config) (w2 : World) (b k : String) (sr : ScanResult),
      Effect.deleteObject b k ∈ (handle_infected_file cfg2 w2 b k sr).snd →
      w2.copyOk = true) :=
  claim_C2 cfg0 wCopyFail evDoc "uploads" "report.pdf" 2048
    "/tmp/x: Eicar-Test-Signature FOUND" ""
    rfl (by decide) (by decide) rfl rfl rfl rfl

/-- C6: on engine exit code 1 the scan result is infected with details
the first non-empty of trimmed standard output and standard error; the
handler then copies the object to the date-partitioned quarantine key
with the original location, the 256-character-truncated details and the
quarantine timestamp as metadata, deletes the original, emits a
MALWARE_DETECTED alert carrying the quarantine location, and returns
200. -/
theorem claim_C6 (cfg : Config) (w : World) (event : Event)
    (bucket key : String) (size : Nat) (out err : String)
    (hp : parse_event event = Except.ok (bucket, key, size))
    (hsize : ¬ size > MAX_FILE_SIZE cfg)
    (hext : splitext_ext (pyLower key) ∉ SKIP_EXTENSIONS)
    (hdl : w.scan.downloadOk = true) (hex : w.scan.clamscanExists = true)
    (heng : w.scan.engine = EngineOutcome.completed 1 out err)
    (hcopy : w.copyOk = true) (hdel : w.deleteOk = true) :
    (scan_file cfg w.scan bucket key).result =
      Except.ok { infected := true, details := pyOrStr out.trim err.trim } ∧
    (handler cfg w event).fst =
      Except.ok { statusCode := 200, body := "Infected file quarantined" } ∧
    quarantine_key w.now bucket key =
      "infected/" ++ strftimeYMD w.now ++ "/" ++ bucket ++ "/" ++ key ∧
    Effect.copyObject bucket key cfg.quarantineBucket
      (quarantine_key w.now bucket key)
      (quarantine_metadata w.now bucket key (pyOrStr out.trim err.trim))
      ∈ (handler cfg w event).snd ∧
    Effect.deleteObject bucket key ∈ (handler cfg w event).snd ∧
    Effect.alert "MALWARE_DETECTED"
      [("bucket", bucket), ("key", key),
       ("scan_result", pyOrStr out.trim err.trim),
       ("quarantine_location",
         "s3://" ++ cfg.quarantineBucket ++ "/" ++ quarantine_key w.now bucket key),
       ("action", "File quarantined and deleted from source")]
      ∈ (handler cfg w event).snd ∧
    quarantine_metadata w.now bucket key (pyOrStr out.trim err.trim) =
      [("original-bucket", bucket), ("original-key", key),
       ("scan-result", (pyOrStr out.trim err.trim).take 256),
       ("quarantine-date", w.now.iso)] := by
  refine ⟨?_, ?_, rfl, ?_, ?_, ?_, rfl⟩
  · simp [scan_file, scan_file_try, hdl, hex, heng, cleanup_tmp_ok]
  · unfold handler
    rw [hp]
    simp [hsize, hext, scan_file, scan_file_try, hdl, hex, heng, cleanup_tmp_ok,
      handle_infected_file, hcopy, hdel]
  · unfold handler
    rw [hp]
    simp [hsize, hext, scan_file, scan_file_try, hdl, hex, heng, cleanup_tmp_ok,
      handle_infected_file, hcopy, hdel]
  · unfold handler
    rw [hp]
    simp [hsize, hext, scan_file, scan_file_try, hdl, hex, heng, cleanup_tmp_ok,
      handle_infected_file, hcopy, hdel]
  · unfold handler
    rw [hp]
    simp [hsize, hext, scan_file, scan_file_try, hdl, hex, heng, cleanup_tmp_ok,
      handle_infected_file, hcopy, hdel, alert_mem_send_alert]

/-- C6 witness: an Eicar finding with both storage calls succeeding. -/
theorem claim_C6_witness :
    (scan_file cfg0 wInf.scan "uploads" "report.pdf").result =
      Except.ok { infected := true
                  details := pyOrStr "/tmp/x: Eicar-Test-Signature FOUND".trim "".trim } ∧
    (handler cfg0 wInf evDoc).fst =
      Except.ok { statusCode := 200, body := "Infected file quarantined" } ∧
    quarantine_key wInf.now "uploads" "report.pdf" =
      "infected/" ++ strftimeYMD wInf.now ++ "/" ++ "uploads" ++ "/" ++ "report.pdf" ∧
    Effect.copyObject "uploads" "report.pdf" cfg0.quarantineBucket
      (quarantine_key wInf.now "uploads" "report.pdf")
      (quarantine_metadata wInf.now "uploads" "report.pdf"
        (pyOrStr "/tmp/x: Eicar-Test-Signature FOUND".trim "".trim))
      ∈ (handler cfg0 wInf evDoc).snd ∧
    Effect.deleteObject "uploads" "report.pdf" ∈ (handler cfg0 wInf evDoc).snd ∧
    Effect.alert "MALWARE_DETECTED"
      [("bucket", "uploads"), ("key", "report.pdf"),
       ("scan_result", pyOrStr "/tmp/x: Eicar-Test-Signature FOUND".trim "".trim),
       ("quarantine_location",
         "s3://" ++ cfg0.quarantineBucket ++ "/" ++
           quarantine_key wInf.now "uploads" "report.pdf"),
       ("action", "File quarantined and deleted from source")]
      ∈ (handler cfg0 wInf evDoc).snd ∧
    quarantine_metadata wInf.now "uploads" "report.pdf"
      (pyOrStr "/tmp/x: Eicar-Test-Signature FOUND".trim "".trim) =
      [("original-bucket", "uploads"), ("original-key", "report.pdf"),
       ("scan-result",
         (pyOrStr "/tmp/x: Eicar-Test-Signature FOUND".trim "".trim).take 256),
       ("quarantine-date", wInf.now.iso)] :=
  claim_C6 cfg0 wInf evDoc "uploads" "report.pdf" 2048
    "/tmp/x: Eicar-Test-Signature FOUND" ""
    rfl (by decide) (by decide) rfl rfl rfl rfl rfl

end ClamavScanner
